import Mathlib

/-!
Shallow embedding of the `vastcap` Go client library (`vastcap.go`).

Conventions of the embedding:
* JSON values are modelled by the inductive `Json`; a Go struct's
  serialization is modelled by a `toFields` function returning the ordered
  list of key/value pairs `encoding/json` would emit (struct fields in
  declaration order, embedded struct fields first, `omitempty` fields
  dropped exactly when the Go value is "empty": `false`, `0`, `""`,
  empty map — but never for struct-typed fields, which `encoding/json`
  never treats as empty).
* Go's `float64` fields are modelled by `ℚ` (the only operations the code
  performs on them are the `omitempty` zero test and pass-through).
* The HTTP round trip performed by the `requests` builder chain
  (`URL … BodyJSON … ToJSON … CheckStatus(200) … Fetch`) is modelled by a
  function of an `HttpOutcome` parameter standing for what the network
  returns; validators (`CheckStatus`) run before the body handler
  (`ToJSON`), matching the `carlmjohnson/requests` pipeline.
* A Go `error` value is modelled by `GoError`: either the error returned
  by `Fetch` itself (propagated unchanged) or the plain string error built
  by `fmt.Errorf` (which carries nothing but its formatted message).
* Each method returns a `MethodRun`: the post-call caller-visible frame
  (the receiver `*VastCap` and the caller's argument variable — Go passes
  the task struct by value, so the body's `data.Type = …` writes a copy),
  the HTTP request it sent, and the Go return values.
-/

/-- JSON values. Object fields are an ordered association list, in the
order `encoding/json` emits them. -/
inductive Json where
  | null : Json
  | bool (b : Bool) : Json
  | num (q : ℚ) : Json
  | str (s : String) : Json
  | arr (elems : List Json) : Json
  | obj (fields : List (String × Json)) : Json

namespace Json

/-- Last-occurrence lookup in an object's field list (Go's `Unmarshal`
lets a later duplicate key overwrite an earlier one). -/
def lookupLast (k : String) : List (String × Json) → Option Json
  | [] => none
  | (k2, v) :: rest =>
    match lookupLast k rest with
    | some v2 => some v2
    | none => if k2 = k then some v else none

/-- Field lookup on a JSON value (none when not an object). -/
def getField (j : Json) (k : String) : Option Json :=
  match j with
  | .obj fs => lookupLast k fs
  | _ => none

/-- The top-level keys of a JSON object, in emission order. -/
def topKeys (j : Json) : List String :=
  match j with
  | .obj fs => fs.map Prod.fst
  | _ => []

end Json

/-- `type VastCap struct { APIKey string }` -/
structure VastCap where
  APIKey : String
deriving DecidableEq, Repr

/-- `func New(apiKey string) *VastCap` — stores the key verbatim. -/
def New (apiKey : String) : VastCap :=
  { APIKey := apiKey }

/-- `apiError` — `errorId`, `errorCode`, `errorDescription`. -/
structure ApiError where
  errorId : Int
  errorCode : String
  errorDescription : String
deriving DecidableEq, Repr

/-- `TaskBase` — `type`, `proxy,omitempty`, `userAgent,omitempty`,
`websiteKey`, `websiteURL`. Go zero value of a string field is `""`. -/
structure TaskBase where
  type : String
  proxy : String
  userAgent : String
  websiteKey : String
  websiteURL : String
deriving DecidableEq, Repr

/-- Serialization of `TaskBase` fields, in declaration order; `proxy` and
`userAgent` carry `omitempty`. -/
def TaskBase.toFields (t : TaskBase) : List (String × Json) :=
  [("type", Json.str t.type)]
    ++ (if t.proxy = "" then [] else [("proxy", Json.str t.proxy)])
    ++ (if t.userAgent = "" then [] else [("userAgent", Json.str t.userAgent)])
    ++ [("websiteKey", Json.str t.websiteKey), ("websiteURL", Json.str t.websiteURL)]

/-- `HCaptchaTask` — embeds `TaskBase`; adds `rqdata,omitempty`,
`invisible,omitempty`, `enterprise,omitempty`. -/
structure HCaptchaTask where
  base : TaskBase
  rqData : String
  invisible : Bool
  enterprise : Bool
deriving DecidableEq, Repr

def HCaptchaTask.toFields (t : HCaptchaTask) : List (String × Json) :=
  t.base.toFields
    ++ (if t.rqData = "" then [] else [("rqdata", Json.str t.rqData)])
    ++ (if t.invisible = false then [] else [("invisible", Json.bool t.invisible)])
    ++ (if t.enterprise = false then [] else [("enterprise", Json.bool t.enterprise)])

/-- `RecaptchaTask` — embeds `TaskBase`; adds `isInvisible,omitempty`,
`minScore,omitempty` (float64), `pageAction,omitempty`. -/
structure RecaptchaTask where
  base : TaskBase
  isInvisible : Bool
  minScore : ℚ
  pageAction : String
deriving DecidableEq, Repr

def RecaptchaTask.toFields (t : RecaptchaTask) : List (String × Json) :=
  t.base.toFields
    ++ (if t.isInvisible = false then [] else [("isInvisible", Json.bool t.isInvisible)])
    ++ (if t.minScore = 0 then [] else [("minScore", Json.num t.minScore)])
    ++ (if t.pageAction = "" then [] else [("pageAction", Json.str t.pageAction)])

/-- The anonymous `Data` struct of `FunCaptchaTask`: `blob,omitempty` and
`custom_cookies,omitempty` (a Go map, modelled as an association list;
its zero value is the nil map, i.e. the empty list). -/
structure FunCaptchaData where
  blob : String
  customCookies : List (String × String)
deriving DecidableEq, Repr

/-- Insertion into a key-sorted cookie list (Go serializes map keys in
sorted order). -/
def insertCookie (p : String × String) : List (String × String) → List (String × String)
  | [] => [p]
  | q :: qs => if p.1 ≤ q.1 then p :: q :: qs else q :: insertCookie p qs

def sortCookies : List (String × String) → List (String × String)
  | [] => []
  | p :: ps => insertCookie p (sortCookies ps)

def FunCaptchaData.toFields (d : FunCaptchaData) : List (String × Json) :=
  (if d.blob = "" then [] else [("blob", Json.str d.blob)])
    ++ (if d.customCookies = [] then []
        else [("custom_cookies",
               Json.obj ((sortCookies d.customCookies).map fun p => (p.1, Json.str p.2)))])

/-- `FunCaptchaTask` — embeds `TaskBase`; adds the nested `Data` struct
with tag `json:"data,omitempty"`. `encoding/json` never considers a
struct value empty, so despite the tag the `data` field is always
emitted. -/
structure FunCaptchaTask where
  base : TaskBase
  data : FunCaptchaData
deriving DecidableEq, Repr

def FunCaptchaTask.toFields (t : FunCaptchaTask) : List (String × Json) :=
  t.base.toFields ++ [("data", Json.obj t.data.toFields)]

/-- `TurnstileTask` — embeds `TaskBase`; adds `invisible,omitempty`. -/
structure TurnstileTask where
  base : TaskBase
  invisible : Bool
deriving DecidableEq, Repr

def TurnstileTask.toFields (t : TurnstileTask) : List (String × Json) :=
  t.base.toFields
    ++ (if t.invisible = false then [] else [("invisible", Json.bool t.invisible)])

/-- `taskSolution` — six pointer fields, all `omitempty`; a nil pointer is
`none`. -/
structure TaskSolution where
  gRecaptchaResponse : Option String
  hCaptchaResponse : Option String
  turnstileResponse : Option String
  text : Option String
  score : Option ℚ
  userAgent : Option String
deriving DecidableEq, Repr

/-- `TaskResult` — `status`, `solution *taskSolution`, `error *apiError`. -/
structure TaskResult where
  status : String
  solution : Option TaskSolution
  error : Option ApiError
deriving DecidableEq, Repr

/-- The Go zero value `TaskResult{}`. -/
def zeroTaskResult : TaskResult :=
  { status := "", solution := none, error := none }

/-! ## Response decoding (`json.Unmarshal` into the Go result structs) -/

/-- Unmarshal a JSON value into a Go `string` field: an absent key or a
JSON `null` leaves the zero value `""`; a JSON string is taken verbatim;
anything else is a type error. -/
def decodeStringField (j : Option Json) : Except String String :=
  match j with
  | none => .ok ""
  | some .null => .ok ""
  | some (.str s) => .ok s
  | some _ => .error "json: cannot unmarshal value into Go field of type string"

/-- Unmarshal a JSON value into a Go `int` field: absent or `null` leaves
`0`; an integral JSON number is taken; a fractional number or any other
value is a type error. -/
def decodeIntField (j : Option Json) : Except String Int :=
  match j with
  | none => .ok 0
  | some .null => .ok 0
  | some (.num q) => if q.den = 1 then .ok q.num
      else .error "json: cannot unmarshal number into Go field of type int"
  | some _ => .error "json: cannot unmarshal value into Go field of type int"

/-- Unmarshal into a Go `*string` field: absent leaves the nil pointer,
`null` sets it to nil, a string allocates. -/
def decodeStringPtrField (j : Option Json) : Except String (Option String) :=
  match j with
  | none => .ok none
  | some .null => .ok none
  | some (.str s) => .ok (some s)
  | some _ => .error "json: cannot unmarshal value into Go field of type *string"

/-- Unmarshal into a Go `*float64` field. -/
def decodeFloatPtrField (j : Option Json) : Except String (Option ℚ) :=
  match j with
  | none => .ok none
  | some .null => .ok none
  | some (.num q) => .ok (some q)
  | some _ => .error "json: cannot unmarshal value into Go field of type *float64"

/-- Unmarshal a JSON object into `apiError`. -/
def decodeApiError (j : Json) : Except String ApiError :=
  match j with
  | .obj _ => do
    let i ← decodeIntField (j.getField "errorId")
    let c ← decodeStringField (j.getField "errorCode")
    let d ← decodeStringField (j.getField "errorDescription")
    .ok { errorId := i, errorCode := c, errorDescription := d }
  | _ => .error "json: cannot unmarshal value into Go value of type apiError"

/-- Unmarshal into a Go `*apiError` field. -/
def decodeApiErrorPtrField (j : Option Json) : Except String (Option ApiError) :=
  match j with
  | none => .ok none
  | some .null => .ok none
  | some v => do
    let e ← decodeApiError v
    .ok (some e)

/-- The anonymous response struct of every create-task method:
`struct { TaskID string json:"taskId"; Error *apiError json:"error,omitempty" }`. -/
structure CreateResp where
  taskID : String
  error : Option ApiError
deriving DecidableEq, Repr

/-- Unmarshal the create-task response body. A top-level `null` leaves the
zero value (Go's `Unmarshal` ignores `null` for a non-pointer target);
a non-object is a type error; unknown keys are ignored. -/
def decodeCreateResp (body : Json) : Except String CreateResp :=
  match body with
  | .null => .ok { taskID := "", error := none }
  | .obj _ => do
    let t ← decodeStringField (body.getField "taskId")
    let e ← decodeApiErrorPtrField (body.getField "error")
    .ok { taskID := t, error := e }
  | _ => .error "json: cannot unmarshal value into Go value of type struct"

/-- Unmarshal a JSON object into `taskSolution`. -/
def decodeTaskSolution (j : Json) : Except String TaskSolution :=
  match j with
  | .obj _ => do
    let g ← decodeStringPtrField (j.getField "gRecaptchaResponse")
    let h ← decodeStringPtrField (j.getField "hCaptchaResponse")
    let t ← decodeStringPtrField (j.getField "turnstileResponse")
    let x ← decodeStringPtrField (j.getField "text")
    let s ← decodeFloatPtrField (j.getField "score")
    let u ← decodeStringPtrField (j.getField "userAgent")
    .ok { gRecaptchaResponse := g, hCaptchaResponse := h, turnstileResponse := t,
          text := x, score := s, userAgent := u }
  | _ => .error "json: cannot unmarshal value into Go value of type taskSolution"

/-- Unmarshal into a Go `*taskSolution` field. -/
def decodeTaskSolutionPtrField (j : Option Json) : Except String (Option TaskSolution) :=
  match j with
  | none => .ok none
  | some .null => .ok none
  | some v => do
    let s ← decodeTaskSolution v
    .ok (some s)

/-- Unmarshal the get-result response body into `TaskResult`. -/
def decodeTaskResult (body : Json) : Except String TaskResult :=
  match body with
  | .null => .ok zeroTaskResult
  | .obj _ => do
    let st ← decodeStringField (body.getField "status")
    let so ← decodeTaskSolutionPtrField (body.getField "solution")
    let er ← decodeApiErrorPtrField (body.getField "error")
    .ok { status := st, solution := so, error := er }
  | _ => .error "json: cannot unmarshal value into Go value of type TaskResult"

/-! ## The HTTP round trip -/

/-- What the network returns for the single POST a method performs:
either the request itself fails (`netErr`), or a response with a status
code and a JSON body arrives. -/
inductive HttpOutcome where
  | netErr (msg : String) : HttpOutcome
  | response (status : Nat) (body : Json) : HttpOutcome

/-- An error produced by `requests.Fetch` itself: a network/transport
failure, a `CheckStatus` validator failure (response status ≠ 200), or a
failure of the `ToJSON` body handler. -/
inductive FetchError where
  | network (msg : String) : FetchError
  | badStatus (status : Nat) : FetchError
  | decodeFail (msg : String) : FetchError
deriving DecidableEq, Repr

/-- A Go `error` value as this library produces it: either the `Fetch`
error returned unchanged, or the plain string error built by
`fmt.Errorf` — which carries nothing but its formatted message. -/
inductive GoError where
  | fetchErr (e : FetchError) : GoError
  | stringErr (msg : String) : GoError
deriving DecidableEq, Repr

/-- `fmt.Errorf("vastcap error: %s (%s)", e.ErrorDescription, e.ErrorCode)`. -/
def vastcapErrorMsg (e : ApiError) : String :=
  "vastcap error: " ++ e.errorDescription ++ " (" ++ e.errorCode ++ ")"

/-- `var createTaskURL = "https://captcha.vast.sh/api/solver/createTask"` -/
def createTaskURL : String := "https://captcha.vast.sh/api/solver/createTask"

/-- `var getTaskResultURL = "https://captcha.vast.sh/api/solver/getTaskResult"` -/
def getTaskResultURL : String := "https://captcha.vast.sh/api/solver/getTaskResult"

/-- The POST a method sends: its URL and serialized JSON body. -/
structure HttpCall where
  url : String
  body : Json

/-- The shared tail of every create-task method: run the `requests`
pipeline against the network outcome — `Fetch` fails on a network error;
`CheckStatus(200)` rejects any other status before the `ToJSON` handler
touches the body; a decode failure is a `Fetch` error — then, on `err ==
nil`, test `resp.Error` and either build the `fmt.Errorf` error or return
`resp.TaskID`. Go's `(string, error)` pair is `String × Option GoError`;
the error paths return `""` for the string. -/
def runCreateTask (outcome : HttpOutcome) : String × Option GoError :=
  match outcome with
  | .netErr m => ("", some (.fetchErr (.network m)))
  | .response status body =>
    if status = 200 then
      match decodeCreateResp body with
      | .error m => ("", some (.fetchErr (.decodeFail m)))
      | .ok resp =>
        match resp.error with
        | some e => ("", some (.stringErr (vastcapErrorMsg e)))
        | none => (resp.taskID, none)
    else ("", some (.fetchErr (.badStatus status)))

/-- The caller-visible frame of a method call: the receiver object `*c`,
the caller's argument variable, and the callee's parameter copy (Go
passes the task struct by value, so at the call all three are
initialized from the caller's values and the body's assignments hit only
`localArg`). -/
structure CallFrame (τ : Type) where
  receiver : VastCap
  callerArg : τ
  localArg : τ

/-- Frame at function entry: the parameter is a copy of the caller's
argument. -/
def mkFrame {τ : Type} (c : VastCap) (arg : τ) : CallFrame τ :=
  { receiver := c, callerArg := arg, localArg := arg }

/-- Everything observable about one method call: the post-call frame, the
HTTP request that was sent, and the Go return values. -/
structure MethodRun (τ : Type) where
  frame : CallFrame τ
  request : HttpCall
  result : String × Option GoError

/-- The request body `map[string]interface{}{"clientKey": c.APIKey,
"task": data}`; Go serializes map keys in sorted order, so `clientKey`
precedes `task`. -/
def createTaskBody (apiKey : String) (taskFields : List (String × Json)) : Json :=
  Json.obj [("clientKey", Json.str apiKey), ("task", Json.obj taskFields)]

/-- `func (c *VastCap) HCaptcha(data HCaptchaTask) (string, error)` —
sets `data.Type = "HCaptchaTask"` on the parameter copy, POSTs
`{clientKey, task}` to `createTaskURL`, and runs the shared response
handling. -/
def VastCap.HCaptcha (c : VastCap) (data : HCaptchaTask) (outcome : HttpOutcome) :
    MethodRun HCaptchaTask :=
  let fr := mkFrame c data
  let fr := { fr with localArg := { fr.localArg with base.type := "HCaptchaTask" } }
  { frame := fr
    request := { url := createTaskURL
                 body := createTaskBody fr.receiver.APIKey fr.localArg.toFields }
    result := runCreateTask outcome }

/-- `func (c *VastCap) Recaptcha(data RecaptchaTask, v3 bool) (string, error)`
— sets `data.Type = "RecaptchaV2Task"`, overwritten with
`"RecaptchaV3Task"` when `v3` is true. -/
def VastCap.Recaptcha (c : VastCap) (data : RecaptchaTask) (v3 : Bool)
    (outcome : HttpOutcome) : MethodRun RecaptchaTask :=
  let fr := mkFrame c data
  let fr := { fr with localArg := { fr.localArg with base.type := "RecaptchaV2Task" } }
  let fr := if v3 then
      { fr with localArg := { fr.localArg with base.type := "RecaptchaV3Task" } }
    else fr
  { frame := fr
    request := { url := createTaskURL
                 body := createTaskBody fr.receiver.APIKey fr.localArg.toFields }
    result := runCreateTask outcome }

/-- `func (c *VastCap) Turnstile(data TurnstileTask) (string, error)`. -/
def VastCap.Turnstile (c : VastCap) (data : TurnstileTask) (outcome : HttpOutcome) :
    MethodRun TurnstileTask :=
  let fr := mkFrame c data
  let fr := { fr with localArg := { fr.localArg with base.type := "TurnstileTask" } }
  { frame := fr
    request := { url := createTaskURL
                 body := createTaskBody fr.receiver.APIKey fr.localArg.toFields }
    result := runCreateTask outcome }

/-- `func (c *VastCap) FunCaptcha(data FunCaptchaTask) (string, error)`. -/
def VastCap.FunCaptcha (c : VastCap) (data : FunCaptchaTask) (outcome : HttpOutcome) :
    MethodRun FunCaptchaTask :=
  let fr := mkFrame c data
  let fr := { fr with localArg := { fr.localArg with base.type := "FunCaptchaTask" } }
  { frame := fr
    request := { url := createTaskURL
                 body := createTaskBody fr.receiver.APIKey fr.localArg.toFields }
    result := runCreateTask outcome }

/-- `func (c *VastCap) ImageToText(data TaskBase) (string, error)`. -/
def VastCap.ImageToText (c : VastCap) (data : TaskBase) (outcome : HttpOutcome) :
    MethodRun TaskBase :=
  let fr := mkFrame c data
  let fr := { fr with localArg := { fr.localArg with type := "ImageToTextTask" } }
  { frame := fr
    request := { url := createTaskURL
                 body := createTaskBody fr.receiver.APIKey fr.localArg.toFields }
    result := runCreateTask outcome }

/-- The observables of one `GetResult` call; Go's `(TaskResult, error)`
pair is `TaskResult × Option GoError`. -/
structure GetResultRun where
  frame : CallFrame String
  request : HttpCall
  result : TaskResult × Option GoError

/-- `func (c *VastCap) GetResult(taskID string) (TaskResult, error)` —
POSTs `{clientKey, taskId}` to `getTaskResultURL`; on any `Fetch` error
or a non-nil decoded `Error` it returns the zero `TaskResult{}` with an
error, otherwise the decoded result. -/
def VastCap.GetResult (c : VastCap) (taskID : String) (outcome : HttpOutcome) :
    GetResultRun :=
  let fr := mkFrame c taskID
  { frame := fr
    request := { url := getTaskResultURL
                 body := Json.obj [("clientKey", Json.str fr.receiver.APIKey),
                                   ("taskId", Json.str fr.localArg)] }
    result :=
      match outcome with
      | .netErr m => (zeroTaskResult, some (.fetchErr (.network m)))
      | .response status body =>
        if status = 200 then
          match decodeTaskResult body with
          | .error m => (zeroTaskResult, some (.fetchErr (.decodeFail m)))
          | .ok resp =>
            match resp.error with
            | some e => (zeroTaskResult, some (.stringErr (vastcapErrorMsg e)))
            | none => (resp, none)
        else (zeroTaskResult, some (.fetchErr (.badStatus status))) }

/-! ## Observation helpers and concrete sample values -/

/-- The value of key `k` inside the request body's `task` object. -/
def HttpCall.taskField (r : HttpCall) (k : String) : Option Json :=
  match r.body.getField "task" with
  | some t => t.getField k
  | none => none

/-- The keys of the request body's `task` object, in emission order. -/
def HttpCall.taskKeys (r : HttpCall) : List String :=
  match r.body.getField "task" with
  | some t => t.topKeys
  | none => []

/-- `sub` occurs as a contiguous substring of `s`. -/
def strHasSub (s sub : String) : Prop := sub.toList <:+: s.toList

instance (s sub : String) : Decidable (strHasSub s sub) :=
  List.decidableInfix sub.toList s.toList

/-- A response body `{"error": {...}}` carrying the given API error. -/
def errorBodyOf (e : ApiError) : Json :=
  Json.obj [("error", Json.obj [("errorId", Json.num (e.errorId : ℚ)),
                                ("errorCode", Json.str e.errorCode),
                                ("errorDescription", Json.str e.errorDescription)])]

/-- A sample task base; its `type` field is deliberately caller-supplied
garbage, which every create method must overwrite. -/
def sampleBase : TaskBase :=
  { type := "caller-set", proxy := "", userAgent := "",
    websiteKey := "wk", websiteURL := "wu" }

/-- A sample hCaptcha task with every optional field unset. -/
def sampleH : HCaptchaTask :=
  { base := sampleBase, rqData := "", invisible := false, enterprise := false }

/-- A sample FunCaptcha task with every optional field unset (blob empty,
cookies nil). -/
def sampleFunTask : FunCaptchaTask :=
  { base := sampleBase, data := { blob := "", customCookies := [] } }

/-- The reCAPTCHA task of the round-trip property: `minScore 0.7`,
`pageAction "login"`, everything optional else unset. -/
def sampleRecaptcha : RecaptchaTask :=
  { base := { type := "", proxy := "", userAgent := "",
              websiteKey := "wk", websiteURL := "wu" },
    isInvisible := false, minScore := 7/10, pageAction := "login" }

/-- The mocked error body of the spec's testable property:
`{"error": {"errorId": 1, "errorCode": "KEY_INVALID",
"errorDescription": "bad key"}}`. -/
def errBodyKeyInvalid : Json :=
  Json.obj [("error", Json.obj [("errorId", Json.num 1),
                                ("errorCode", Json.str "KEY_INVALID"),
                                ("errorDescription", Json.str "bad key")])]

/-- A mocked get-result body for a failed task. -/
def failedBody : Json :=
  Json.obj [("status", Json.str "failed"),
            ("error", Json.obj [("errorId", Json.num 3),
                                ("errorCode", Json.str "X"),
                                ("errorDescription", Json.str "boom")])]

/-! ## Helper lemmas -/

theorem lookupLast_not_mem {k : String} {l : List (String × Json)}
    (h : k ∉ l.map Prod.fst) : Json.lookupLast k l = none := by
  induction l with
  | nil => rfl
  | cons p rest ih =>
    obtain ⟨k2, v⟩ := p
    simp only [List.map_cons, List.mem_cons] at h
    push_neg at h
    simp only [Json.lookupLast, ih h.2]
    simp [Ne.symm h.1]

theorem taskBase_lookup_type (t : TaskBase) :
    Json.lookupLast "type" t.toFields = some (Json.str t.type) := by
  unfold TaskBase.toFields
  split_ifs <;> simp [Json.lookupLast]

theorem hcaptcha_lookup_type (t : HCaptchaTask) :
    Json.lookupLast "type" t.toFields = some (Json.str t.base.type) := by
  unfold HCaptchaTask.toFields TaskBase.toFields
  split_ifs <;> simp [Json.lookupLast]

theorem recaptcha_lookup_type (t : RecaptchaTask) :
    Json.lookupLast "type" t.toFields = some (Json.str t.base.type) := by
  unfold RecaptchaTask.toFields TaskBase.toFields
  split_ifs <;> simp [Json.lookupLast]

theorem funcaptcha_lookup_type (t : FunCaptchaTask) :
    Json.lookupLast "type" t.toFields = some (Json.str t.base.type) := by
  unfold FunCaptchaTask.toFields TaskBase.toFields
  split_ifs <;> simp [Json.lookupLast]

theorem turnstile_lookup_type (t : TurnstileTask) :
    Json.lookupLast "type" t.toFields = some (Json.str t.base.type) := by
  unfold TurnstileTask.toFields TaskBase.toFields
  split_ifs <;> simp [Json.lookupLast]

theorem decodeCreateResp_errorBody (e : ApiError) :
    decodeCreateResp (errorBodyOf e) = .ok { taskID := "", error := some e } := by
  simp [decodeCreateResp, errorBodyOf, Json.getField, Json.lookupLast,
        decodeStringField, decodeApiErrorPtrField, decodeApiError, decodeIntField,
        Rat.den_intCast, Rat.num_intCast, Bind.bind, Except.bind]

theorem hcaptcha_result_on_errorBody (c : VastCap) (d : HCaptchaTask) (e : ApiError) :
    (c.HCaptcha d (.response 200 (errorBodyOf e))).result
      = ("", some (.stringErr (vastcapErrorMsg e))) := by
  simp [VastCap.HCaptcha, runCreateTask, decodeCreateResp_errorBody]

/-! ## Claim theorems -/

/-- C1: every create-task method serializes a request whose `task.type`
field equals that method's fixed discriminator — `HCaptcha` sends
`"HCaptchaTask"`, `Recaptcha` with the v3 flag true sends
`"RecaptchaV3Task"` and with it false `"RecaptchaV2Task"`, `Turnstile`
sends `"TurnstileTask"`, `FunCaptcha` sends `"FunCaptchaTask"`,
`ImageToText` sends `"ImageToTextTask"` — for every task value, so any
caller-supplied `Type` is overwritten before serialization. -/
theorem createTask_sets_type_discriminator :
    (∀ (c : VastCap) (d : HCaptchaTask) (o : HttpOutcome),
      (c.HCaptcha d o).request.taskField "type" = some (Json.str "HCaptchaTask"))
  ∧ (∀ (c : VastCap) (d : RecaptchaTask) (o : HttpOutcome),
      (c.Recaptcha d true o).request.taskField "type" = some (Json.str "RecaptchaV3Task"))
  ∧ (∀ (c : VastCap) (d : RecaptchaTask) (o : HttpOutcome),
      (c.Recaptcha d false o).request.taskField "type" = some (Json.str "RecaptchaV2Task"))
  ∧ (∀ (c : VastCap) (d : TurnstileTask) (o : HttpOutcome),
      (c.Turnstile d o).request.taskField "type" = some (Json.str "TurnstileTask"))
  ∧ (∀ (c : VastCap) (d : FunCaptchaTask) (o : HttpOutcome),
      (c.FunCaptcha d o).request.taskField "type" = some (Json.str "FunCaptchaTask"))
  ∧ (∀ (c : VastCap) (d : TaskBase) (o : HttpOutcome),
      (c.ImageToText d o).request.taskField "type" = some (Json.str "ImageToTextTask")) := by
  refine ⟨fun c d o => ?_, fun c d o => ?_, fun c d o => ?_,
          fun c d o => ?_, fun c d o => ?_, fun c d o => ?_⟩
  · have h : (c.HCaptcha d o).request.taskField "type"
        = Json.lookupLast "type"
            ({ d with base.type := "HCaptchaTask" } : HCaptchaTask).toFields := rfl
    rw [h, hcaptcha_lookup_type]
  · have h : (c.Recaptcha d true o).request.taskField "type"
        = Json.lookupLast "type"
            ({ d with base.type := "RecaptchaV3Task" } : RecaptchaTask).toFields := rfl
    rw [h, recaptcha_lookup_type]
  · have h : (c.Recaptcha d false o).request.taskField "type"
        = Json.lookupLast "type"
            ({ d with base.type := "RecaptchaV2Task" } : RecaptchaTask).toFields := rfl
    rw [h, recaptcha_lookup_type]
  · have h : (c.Turnstile d o).request.taskField "type"
        = Json.lookupLast "type"
            ({ d with base.type := "TurnstileTask" } : TurnstileTask).toFields := rfl
    rw [h, turnstile_lookup_type]
  · have h : (c.FunCaptcha d o).request.taskField "type"
        = Json.lookupLast "type"
            ({ d with base.type := "FunCaptchaTask" } : FunCaptchaTask).toFields := rfl
    rw [h, funcaptcha_lookup_type]
  · have h : (c.ImageToText d o).request.taskField "type"
        = Json.lookupLast "type"
            ({ d with type := "ImageToTextTask" } : TaskBase).toFields := rfl
    rw [h, taskBase_lookup_type]

/-- C2 counterexample: two API error responses that differ only in the
numeric `errorId` (1 vs 42) produce literally identical return values
from `HCaptcha`, and that return value is a plain string error — so no
caller can recover the `errorId` from the returned error; it is not
preserved in any structured form. -/
theorem errorId_discarded_counterexample :
    ((New "k").HCaptcha sampleH
        (.response 200 (errorBodyOf ⟨1, "KEY_INVALID", "bad key"⟩))).result
      = ((New "k").HCaptcha sampleH
          (.response 200 (errorBodyOf ⟨42, "KEY_INVALID", "bad key"⟩))).result
  ∧ ((New "k").HCaptcha sampleH
        (.response 200 (errorBodyOf ⟨1, "KEY_INVALID", "bad key"⟩))).result
      = ("", some (.stringErr "vastcap error: bad key (KEY_INVALID)")) := by
  exact ⟨rfl, rfl⟩

/-- C2 (amended): on HTTP 200 with a non-null `error` object the call
fails with an error whose message embeds `errorDescription` and
`errorCode`; the numeric `errorId` is NOT preserved — the returned error
is the plain string built by `fmt.Errorf`, and responses differing only
in `errorId` yield identical return values. -/
theorem apiError_message_embeds_description_and_code
    (c : VastCap) (d : HCaptchaTask) (e : ApiError) :
    (c.HCaptcha d (.response 200 (errorBodyOf e))).result
      = ("", some (.stringErr (vastcapErrorMsg e)))
  ∧ strHasSub (vastcapErrorMsg e) e.errorDescription
  ∧ strHasSub (vastcapErrorMsg e) e.errorCode
  ∧ ∀ n : Int,
      (c.HCaptcha d (.response 200 (errorBodyOf { e with errorId := n }))).result
        = (c.HCaptcha d (.response 200 (errorBodyOf e))).result := by
  refine ⟨hcaptcha_result_on_errorBody c d e, ?_, ?_, fun n => ?_⟩
  · refine ⟨"vastcap error: ".toList, (" (" ++ e.errorCode ++ ")").toList, ?_⟩
    simp [vastcapErrorMsg, String.toList, String.data_append, List.append_assoc]
  · refine ⟨("vastcap error: " ++ e.errorDescription ++ " (").toList, ")".toList, ?_⟩
    simp [vastcapErrorMsg, String.toList, String.data_append, List.append_assoc]
  · rw [hcaptcha_result_on_errorBody, hcaptcha_result_on_errorBody]
    rfl

/-- C3 (code evaluated at the failing input): a `FunCaptchaTask` with
every optional field unset — empty `blob`, nil `customCookies`, no proxy,
no userAgent — still serializes a `"data"` key holding the empty object
`{}`: the `json:"data,omitempty"` tag in the source has no effect because
`encoding/json` never treats a struct value as empty. Every other unset
optional field (`proxy`, `userAgent`, and `blob`/`custom_cookies` inside
`data`) is indeed absent from the serialized task object. -/
theorem funCaptcha_empty_data_field_emitted :
    ((New "k").FunCaptcha sampleFunTask (.response 200 Json.null)).request.taskKeys
      = ["type", "websiteKey", "websiteURL", "data"]
  ∧ ((New "k").FunCaptcha sampleFunTask (.response 200 Json.null)).request.taskField "data"
      = some (Json.obj []) := by
  exact ⟨rfl, rfl⟩

/-- C4: every create-task method, against a mocked HTTP-200 body
`{"taskId": "abc123"}` (and no error object), returns `"abc123"` with a
nil error, and against a mocked HTTP-200 body whose error object has
code `KEY_INVALID` and description `"bad key"` every create method
returns an error whose text contains both `"bad key"` and
`"KEY_INVALID"`. -/
theorem mocked_taskId_and_error_results :
    (∀ (c : VastCap) (dh : HCaptchaTask) (dr : RecaptchaTask) (v3 : Bool)
       (dt : TurnstileTask) (df : FunCaptchaTask) (di : TaskBase),
      (c.HCaptcha dh (.response 200 (Json.obj [("taskId", Json.str "abc123")]))).result
          = ("abc123", none)
      ∧ (c.Recaptcha dr v3 (.response 200 (Json.obj [("taskId", Json.str "abc123")]))).result
          = ("abc123", none)
      ∧ (c.Turnstile dt (.response 200 (Json.obj [("taskId", Json.str "abc123")]))).result
          = ("abc123", none)
      ∧ (c.FunCaptcha df (.response 200 (Json.obj [("taskId", Json.str "abc123")]))).result
          = ("abc123", none)
      ∧ (c.ImageToText di (.response 200 (Json.obj [("taskId", Json.str "abc123")]))).result
          = ("abc123", none))
  ∧ (∀ (c : VastCap) (dh : HCaptchaTask) (dr : RecaptchaTask) (v3 : Bool)
       (dt : TurnstileTask) (df : FunCaptchaTask) (di : TaskBase),
      (c.HCaptcha dh (.response 200 errBodyKeyInvalid)).result
          = ("", some (.stringErr "vastcap error: bad key (KEY_INVALID)"))
      ∧ (c.Recaptcha dr v3 (.response 200 errBodyKeyInvalid)).result
          = ("", some (.stringErr "vastcap error: bad key (KEY_INVALID)"))
      ∧ (c.Turnstile dt (.response 200 errBodyKeyInvalid)).result
          = ("", some (.stringErr "vastcap error: bad key (KEY_INVALID)"))
      ∧ (c.FunCaptcha df (.response 200 errBodyKeyInvalid)).result
          = ("", some (.stringErr "vastcap error: bad key (KEY_INVALID)"))
      ∧ (c.ImageToText di (.response 200 errBodyKeyInvalid)).result
          = ("", some (.stringErr "vastcap error: bad key (KEY_INVALID)")))
  ∧ strHasSub "vastcap error: bad key (KEY_INVALID)" "bad key"
  ∧ strHasSub "vastcap error: bad key (KEY_INVALID)" "KEY_INVALID" := by
  refine ⟨fun c dh dr v3 dt df di => ?_, fun c dh dr v3 dt df di => ?_,
          by decide, by decide⟩
  · exact ⟨rfl, by cases v3 <;> rfl, rfl, rfl, rfl⟩
  · exact ⟨rfl, by cases v3 <;> rfl, rfl, rfl, rfl⟩

/-- C5: for every method, an HTTP response with any status other than 200
is rejected by the `CheckStatus(200)` validator before the `ToJSON`
handler runs: the method returns the `Fetch` status error as-is (no
`vastcap error` string error is ever built from such a response,
whatever the body contains). -/
theorem non200_status_is_transport_error
    (c : VastCap) (status : Nat) (body : Json) (h : status ≠ 200) :
    (∀ d : HCaptchaTask, (c.HCaptcha d (.response status body)).result
        = ("", some (.fetchErr (.badStatus status))))
  ∧ (∀ (d : RecaptchaTask) (v3 : Bool), (c.Recaptcha d v3 (.response status body)).result
        = ("", some (.fetchErr (.badStatus status))))
  ∧ (∀ d : TurnstileTask, (c.Turnstile d (.response status body)).result
        = ("", some (.fetchErr (.badStatus status))))
  ∧ (∀ d : FunCaptchaTask, (c.FunCaptcha d (.response status body)).result
        = ("", some (.fetchErr (.badStatus status))))
  ∧ (∀ d : TaskBase, (c.ImageToText d (.response status body)).result
        = ("", some (.fetchErr (.badStatus status))))
  ∧ (∀ tid : String, (c.GetResult tid (.response status body)).result
        = (zeroTaskResult, some (.fetchErr (.badStatus status)))) := by
  refine ⟨fun d => ?_, fun d v3 => ?_, fun d => ?_, fun d => ?_, fun d => ?_, fun tid => ?_⟩
  · show runCreateTask (.response status body) = _
    simp [runCreateTask, h]
  · show runCreateTask (.response status body) = _
    simp [runCreateTask, h]
  · show runCreateTask (.response status body) = _
    simp [runCreateTask, h]
  · show runCreateTask (.response status body) = _
    simp [runCreateTask, h]
  · show runCreateTask (.response status body) = _
    simp [runCreateTask, h]
  · simp only [VastCap.GetResult]
    simp [h]

/-- C5 witness: at HTTP 500 with an arbitrary body, `HCaptcha` and
`GetResult` return the status error. -/
theorem non200_status_is_transport_error_witness :
    ((New "k").HCaptcha sampleH (.response 500 Json.null)).result
      = ("", some (.fetchErr (.badStatus 500)))
  ∧ ((New "k").GetResult "tid" (.response 500 Json.null)).result
      = (zeroTaskResult, some (.fetchErr (.badStatus 500))) :=
  ⟨(non200_status_is_transport_error (New "k") 500 Json.null (by decide)).1 sampleH,
   (non200_status_is_transport_error (New "k") 500 Json.null (by decide)).2.2.2.2.2 "tid"⟩

/-- C6: `GetResult` on a mocked HTTP-200 body `{"status": "processing"}`
returns a `TaskResult` with status `"processing"` and both solution and
error absent, and on `{"status": "ready", "solution":
{"hCaptchaResponse": "tok"}}` returns a result whose solution's
`hCaptchaResponse` is `"tok"`. -/
theorem getResult_processing_and_ready_decoding (c : VastCap) (tid : String) :
    (c.GetResult tid (.response 200 (Json.obj [("status", Json.str "processing")]))).result
      = ({ status := "processing", solution := none, error := none }, none)
  ∧ (c.GetResult tid (.response 200 (Json.obj [("status", Json.str "ready"),
        ("solution", Json.obj [("hCaptchaResponse", Json.str "tok")])]))).result
      = ({ status := "ready",
           solution := some { gRecaptchaResponse := none, hCaptchaResponse := some "tok",
                              turnstileResponse := none, text := none, score := none,
                              userAgent := none },
           error := none }, none) := by
  exact ⟨rfl, rfl⟩

/-- C7: every method's serialized request body is a JSON object with
exactly two top-level keys — `clientKey` holding the API key stored at
construction, paired with `task` for the five create-task methods and
with `taskId` for `GetResult` — and nothing else. -/
theorem request_body_has_exactly_two_keys (c : VastCap) (o : HttpOutcome) :
    (∀ d : HCaptchaTask,
        (c.HCaptcha d o).request.body.topKeys = ["clientKey", "task"]
      ∧ (c.HCaptcha d o).request.body.getField "clientKey" = some (Json.str c.APIKey))
  ∧ (∀ (d : RecaptchaTask) (v3 : Bool),
        (c.Recaptcha d v3 o).request.body.topKeys = ["clientKey", "task"]
      ∧ (c.Recaptcha d v3 o).request.body.getField "clientKey" = some (Json.str c.APIKey))
  ∧ (∀ d : TurnstileTask,
        (c.Turnstile d o).request.body.topKeys = ["clientKey", "task"]
      ∧ (c.Turnstile d o).request.body.getField "clientKey" = some (Json.str c.APIKey))
  ∧ (∀ d : FunCaptchaTask,
        (c.FunCaptcha d o).request.body.topKeys = ["clientKey", "task"]
      ∧ (c.FunCaptcha d o).request.body.getField "clientKey" = some (Json.str c.APIKey))
  ∧ (∀ d : TaskBase,
        (c.ImageToText d o).request.body.topKeys = ["clientKey", "task"]
      ∧ (c.ImageToText d o).request.body.getField "clientKey" = some (Json.str c.APIKey))
  ∧ (∀ tid : String,
        (c.GetResult tid o).request.body.topKeys = ["clientKey", "taskId"]
      ∧ (c.GetResult tid o).request.body.getField "clientKey" = some (Json.str c.APIKey)
      ∧ (c.GetResult tid o).request.body.getField "taskId" = some (Json.str tid)) := by
  exact ⟨fun d => ⟨rfl, rfl⟩, fun d v3 => by cases v3 <;> exact ⟨rfl, rfl⟩,
         fun d => ⟨rfl, rfl⟩, fun d => ⟨rfl, rfl⟩, fun d => ⟨rfl, rfl⟩,
         fun tid => ⟨rfl, rfl, rfl⟩⟩

/-- C8: submitting `sampleRecaptcha` (minScore 0.7, pageAction "login",
everything else optional unset) with the v3 flag true serializes a task
object holding exactly those two fields plus the inherited `TaskBase`
fields, with `type` equal to `"RecaptchaV3Task"` and no other field
present. -/
theorem recaptcha_v3_roundtrip (c : VastCap) (o : HttpOutcome) :
    (c.Recaptcha sampleRecaptcha true o).request.body.getField "task"
      = some (Json.obj [("type", Json.str "RecaptchaV3Task"),
                        ("websiteKey", Json.str "wk"),
                        ("websiteURL", Json.str "wu"),
                        ("minScore", Json.num (7/10)),
                        ("pageAction", Json.str "login")])
  ∧ (c.Recaptcha sampleRecaptcha true o).request.taskKeys
      = ["type", "websiteKey", "websiteURL", "minScore", "pageAction"] := by
  have hms : (7/10 : ℚ) = 0 ↔ False := by norm_num
  constructor
  · simp [VastCap.Recaptcha, sampleRecaptcha, createTaskBody, Json.getField,
          Json.lookupLast, RecaptchaTask.toFields, TaskBase.toFields, hms, mkFrame]
  · simp [VastCap.Recaptcha, sampleRecaptcha, createTaskBody, HttpCall.taskKeys,
          Json.getField, Json.topKeys, Json.lookupLast, RecaptchaTask.toFields,
          TaskBase.toFields, hms, mkFrame]

/-- C9: no call mutates shared state. The receiver object `*c` (holding
the API key) is unchanged by every method, and the caller's argument is
unchanged because Go passes it by value — in particular `HCaptcha` sets
the `Type` discriminator on its parameter copy while the caller's task
value is untouched. -/
theorem methods_preserve_client_and_argument (c : VastCap) (o : HttpOutcome) :
    (∀ d : HCaptchaTask,
        (c.HCaptcha d o).frame.receiver = c
      ∧ (c.HCaptcha d o).frame.callerArg = d
      ∧ (c.HCaptcha d o).frame.localArg.base.type = "HCaptchaTask")
  ∧ (∀ (d : RecaptchaTask) (v3 : Bool),
        (c.Recaptcha d v3 o).frame.receiver = c
      ∧ (c.Recaptcha d v3 o).frame.callerArg = d)
  ∧ (∀ d : TurnstileTask,
        (c.Turnstile d o).frame.receiver = c ∧ (c.Turnstile d o).frame.callerArg = d)
  ∧ (∀ d : FunCaptchaTask,
        (c.FunCaptcha d o).frame.receiver = c ∧ (c.FunCaptcha d o).frame.callerArg = d)
  ∧ (∀ d : TaskBase,
        (c.ImageToText d o).frame.receiver = c ∧ (c.ImageToText d o).frame.callerArg = d)
  ∧ (∀ tid : String,
        (c.GetResult tid o).frame.receiver = c ∧ (c.GetResult tid o).frame.callerArg = tid) := by
  exact ⟨fun d => ⟨rfl, rfl, rfl⟩, fun d v3 => by cases v3 <;> exact ⟨rfl, rfl⟩,
         fun d => ⟨rfl, rfl⟩, fun d => ⟨rfl, rfl⟩, fun d => ⟨rfl, rfl⟩,
         fun tid => ⟨rfl, rfl⟩⟩

/-- C10: `GetResult` never hands the caller a `TaskResult` whose `Error`
field is non-nil: the `TaskResult` component of its return value always
has `error = none`, and whenever the decoded response carries a non-null
error object, the call returns the zero `TaskResult{}` together with the
`fmt.Errorf` string error. -/
theorem getResult_never_returns_result_with_error :
    (∀ (c : VastCap) (tid : String) (o : HttpOutcome),
        ((c.GetResult tid o).result.1).error = none)
  ∧ (∀ (c : VastCap) (tid : String) (body : Json) (r : TaskResult) (e : ApiError),
        decodeTaskResult body = .ok r → r.error = some e →
        (c.GetResult tid (.response 200 body)).result
          = (zeroTaskResult, some (.stringErr (vastcapErrorMsg e)))) := by
  constructor
  · intro c tid o
    cases o with
    | netErr m => rfl
    | response status body =>
      simp only [VastCap.GetResult]
      by_cases h : status = 200
      · subst h
        simp only [if_pos rfl]
        cases hdec : decodeTaskResult body with
        | error m => simp [hdec, zeroTaskResult]
        | ok resp =>
          cases herr : resp.error with
          | none => simp [hdec, herr]
          | some e => simp [hdec, herr, zeroTaskResult]
      · simp [h, zeroTaskResult]
  · intro c tid body r e hdec herr
    simp only [VastCap.GetResult]
    simp [hdec, herr]

/-- C10 witness: on a mocked failed-task body, `GetResult` returns the
zero `TaskResult` with the string error. -/
theorem getResult_never_returns_result_with_error_witness :
    ((New "k").GetResult "tid" (.response 200 failedBody)).result
      = (zeroTaskResult, some (.stringErr (vastcapErrorMsg ⟨3, "X", "boom"⟩))) :=
  getResult_never_returns_result_with_error.2 (New "k") "tid" failedBody
    ⟨"failed", none, some ⟨3, "X", "boom"⟩⟩ ⟨3, "X", "boom"⟩ (by rfl) rfl
